import Mathlib

/-!
Shallow embedding of the Idea_Pipeline watcher (`src/Idea.py`):
the stability-polling loop, the per-file pipeline run, and the
admission registry of `SentryHandler`.
-/

set_option autoImplicit false

namespace IdeaPipeline

/-- What one iteration of the polling loop in
`SentryHandler.check_and_process_thread` observes about the watched file:
the path no longer exists (`os.path.exists` is false), the size read raised
`OSError` (file locked by the writer), or a size in bytes was read. -/
inductive Obs where
  | disappeared : Obs
  | locked : Obs
  | size (n : Nat) : Obs
deriving DecidableEq

/-- How the polling loop of `check_and_process_thread` ends on a finite
observation sequence: the loop condition `stable_count < max_stable_count`
failed (file declared stable; `rest` are the unconsumed observations), the
file disappeared (early `return`), or the observations ran out with the
loop still waiting (`pending` records `last_size` and `stable_count`). -/
inductive StabilityResult where
  | stable (rest : List Obs)
  | disappeared
  | pending (last_size : Int) (stable_count : Nat)
deriving DecidableEq

/-- The `while stable_count < max_stable_count` loop of
`check_and_process_thread` (src/Idea.py lines 140-169).  State is
`last_size` (initialized to `-1`) and `stable_count` (initialized to `0`).
A `locked` observation (`OSError`) leaves both unchanged (`continue`); a
size equal to `last_size` and greater than zero increments the counter;
any other size resets the counter to `0`; in both of those cases
`last_size` is updated to the current size. -/
def pollLoop (max_stable_count : Nat) : Int → Nat → List Obs → StabilityResult
  | last_size, stable_count, [] =>
      if max_stable_count ≤ stable_count then .stable []
      else .pending last_size stable_count
  | last_size, stable_count, o :: rest =>
      if max_stable_count ≤ stable_count then .stable (o :: rest)
      else
        match o with
        | .disappeared => .disappeared
        | .locked => pollLoop max_stable_count last_size stable_count rest
        | .size n =>
            if (n : Int) = last_size ∧ 0 < n then
              pollLoop max_stable_count (n : Int) (stable_count + 1) rest
            else
              pollLoop max_stable_count (n : Int) 0 rest

/-- Whether the polling loop declares the file stable when it observes
exactly the given sequence of sizes (no disappearance, no lock errors). -/
def declaresStable (max_stable_count : Nat) (sizes : List Nat) : Bool :=
  match pollLoop max_stable_count (-1) 0 (sizes.map Obs.size) with
  | .stable _ => true
  | _ => false

/-- `allEq v k xs`: the first `k` entries of `xs` exist and all equal `v`. -/
def allEq (v : Nat) : Nat → List Nat → Bool
  | 0, _ => true
  | _ + 1, [] => false
  | k + 1, x :: xs => x == v && allEq v k xs

/-- `hasStableWindow N sizes`: somewhere in `sizes` there are `N + 1`
consecutive equal entries whose common value is positive. -/
def hasStableWindow (N : Nat) : List Nat → Bool
  | [] => false
  | x :: xs => (decide (0 < x) && allEq x N xs) || hasStableWindow N xs

/-- `extendsRun last k xs`: the first `k` entries of `xs` each equal the
running `last_size` (seeded with `last`) and are positive — i.e. they would
produce `k` consecutive counter increments in `pollLoop`. -/
def extendsRun (last : Int) : Nat → List Nat → Bool
  | 0, _ => true
  | _ + 1, [] => false
  | k + 1, x :: xs =>
      (decide ((x : Int) = last) && decide (0 < x)) && extendsRun (x : Int) k xs

/-- Python's `str.endswith(suffix)`, modelled on the character lists
underlying the strings. -/
def str_endswith (s suffix : String) : Bool :=
  suffix.data.isSuffixOf s.data

/-- The audio extensions accepted by `start_stability_check`
(src/Idea.py line 124). -/
def audio_extensions : List String :=
  [".mp3", ".m4a", ".wav", ".ogg", ".aac"]

/-- `file_path.endswith(('.mp3', '.m4a', '.wav', '.ogg', '.aac'))` from
src/Idea.py line 124. -/
def is_audio_file (file_path : String) : Bool :=
  audio_extensions.any (fun ext => str_endswith file_path ext)

/-- `SentryHandler.start_stability_check` (src/Idea.py lines 118-129):
if the path is not already in `files_being_checked` and has an audio
extension, add it and spawn a worker (`true`); otherwise do nothing
(`false`).  The registry (`self.files_being_checked`, a Python `set`) is
modelled as a `Finset String`. -/
def start_stability_check (files_being_checked : Finset String)
    (file_path : String) : Finset String × Bool :=
  if file_path ∉ files_being_checked ∧ is_audio_file file_path then
    (insert file_path files_being_checked, true)
  else
    (files_being_checked, false)

/-- External outcomes one pipeline run is exposed to: what
`transcribe_audio` returns (`none` models Python `None`: Whisper failed or
produced no output file), what the Ollama call yields (`none` models a
`requests.exceptions.RequestException`), and whether the persist write,
the ntfy post and the source-file `os.remove` succeed. -/
structure StageEnv where
  transcribeResult : Option String
  ollamaResponse : Option String
  persistOk : Bool
  notifyOk : Bool
  removeOk : Bool
deriving DecidableEq

/-- `format_text` (src/Idea.py lines 38-60): on a successful request it
returns the model's response text; on a `RequestException` it returns the
fallback string that embeds the raw text. -/
def format_text (ollamaResponse : Option String) (text_to_format : String) :
    String :=
  match ollamaResponse with
  | some formatted_text => formatted_text
  | none => "Error: Could not connect to Ollama. Raw text: " ++ text_to_format

/-- Python truthiness of `raw_text` at `if raw_text:` (src/Idea.py line
179): `None` and the empty string are falsy. -/
def truthy : Option String → Bool
  | none => false
  | some s => !(s == "")

/-- What one pipeline run did: which stages ran, what note content the
persist write stored (if it succeeded), and whether the source audio file
was removed from the watch folder. -/
structure PipelineTrace where
  formatAttempted : Bool
  persistAttempted : Bool
  persistedNote : Option String
  notifyAttempted : Bool
  notified : Bool
  cleanupAttempted : Bool
  sourceRemoved : Bool
deriving DecidableEq

/-- The trace of a run that skips Format/Persist/Notify (falsy
`raw_text`): control falls through to step 5, so cleanup of the source
file is still attempted (its own `try` catches a failed remove). -/
def skippedTrace (env : StageEnv) : PipelineTrace :=
  { formatAttempted := false, persistAttempted := false, persistedNote := none
    notifyAttempted := false, notified := false
    cleanupAttempted := true, sourceRemoved := env.removeOk }

/-- The body of the outer `try` in `check_and_process_thread`
(src/Idea.py lines 173-205), run once the file is stable.  The returned
`Bool` is whether an exception escaped the `try` body into the
`except Exception` handler at line 207: the only operation inside the
body that is not individually guarded is the persist write (lines
186-187), so a persist failure jumps to the handler and skips both the
notification (lines 191-198) and the source cleanup (lines 200-205). -/
def processStable (env : StageEnv) : Bool × PipelineTrace :=
  match env.transcribeResult with
  | none => (false, skippedTrace env)
  | some raw_text =>
      if raw_text == "" then (false, skippedTrace env)
      else
        let formatted_note := format_text env.ollamaResponse raw_text
        if env.persistOk then
          (false,
           { formatAttempted := true, persistAttempted := true
             persistedNote := some formatted_note
             notifyAttempted := true, notified := env.notifyOk
             cleanupAttempted := true, sourceRemoved := env.removeOk })
        else
          (true,
           { formatAttempted := true, persistAttempted := true
             persistedNote := none
             notifyAttempted := false, notified := false
             cleanupAttempted := false, sourceRemoved := false })

/-- How a worker thread ended: still polling (`pending`), early return
because the file disappeared, normal completion of the `try` body, or the
`except Exception` handler ran (`unhandledError`). -/
inductive RunOutcome where
  | pending
  | disappeared
  | completed
  | unhandledError
deriving DecidableEq

/-- Result of one `check_and_process_thread` worker: its outcome, the
pipeline trace when the stable branch ran, and the registry contents after
the thread ended. -/
structure WorkerResult where
  outcome : RunOutcome
  trace : Option PipelineTrace
  files_being_checked : Finset String
deriving DecidableEq

/-- `SentryHandler.check_and_process_thread` (src/Idea.py lines 131-212)
with `max_stable_count = 3`: poll until stable; on disappearance remove
the path from the registry and return (line 145-146); once stable, run the
`try/except/finally` — the `finally` (lines 209-212) removes the path from
the registry whether or not the body raised. -/
def check_and_process_thread (files_being_checked : Finset String)
    (file_path : String) (obs : List Obs) (env : StageEnv) : WorkerResult :=
  match pollLoop 3 (-1) 0 obs with
  | .disappeared =>
      { outcome := .disappeared, trace := none
        files_being_checked := files_being_checked.erase file_path }
  | .pending _ _ =>
      { outcome := .pending, trace := none
        files_being_checked := files_being_checked }
  | .stable _ =>
      let r := processStable env
      { outcome := if r.1 then .unhandledError else .completed
        trace := some r.2
        files_being_checked := files_being_checked.erase file_path }

/-- One caller executing the admission code of `start_stability_check` as
two separate atomic sub-steps, the way the Python source interleaves under
threads: first the membership-and-extension test of line 124, then the
`add` of line 125 (performed only if the caller's own test passed). -/
structure AdmitCaller where
  checked : Bool
  passed : Bool
  added : Bool
deriving DecidableEq

/-- A caller that has not run either sub-step yet. -/
def initCaller : AdmitCaller := ⟨false, false, false⟩

/-- Shared state of two concurrent admission attempts for the same path:
the shared `files_being_checked` set and each caller's progress. -/
structure AdmitState where
  files_being_checked : Finset String
  c0 : AdmitCaller
  c1 : AdmitCaller
deriving DecidableEq

/-- Run one caller's next pending sub-step of the admission code: perform
the test of line 124 if it has not run, otherwise perform the `add` of
line 125 when the test passed. -/
def admitStep (file_path : String) (reg : Finset String) (c : AdmitCaller) :
    Finset String × AdmitCaller :=
  if !c.checked then
    (reg,
     { c with
       checked := true
       passed := decide (file_path ∉ reg) && is_audio_file file_path })
  else if c.passed && !c.added then
    (insert file_path reg, { c with added := true })
  else
    (reg, c)

/-- Execute an interleaving of the two callers' sub-steps, given as the
list of caller indices (`false` = first caller, `true` = second caller)
in execution order. -/
def runSchedule (file_path : String) : List Bool → AdmitState → AdmitState
  | [], st => st
  | false :: rest, st =>
      let s := admitStep file_path st.files_being_checked st.c0
      runSchedule file_path rest
        { st with files_being_checked := s.1, c0 := s.2 }
  | true :: rest, st =>
      let s := admitStep file_path st.files_being_checked st.c1
      runSchedule file_path rest
        { st with files_being_checked := s.1, c1 := s.2 }

/-- Whether a `StabilityResult` is a stability declaration. -/
def isStable : StabilityResult → Bool
  | .stable _ => true
  | _ => false

/-- Sample environment: every collaborator succeeds. -/
def envHappy : StageEnv :=
  ⟨some "buy milk", some "- buy milk", true, true, true⟩

/-- Sample environment: the persist write raises. -/
def envPersistFail : StageEnv :=
  ⟨some "buy milk", some "- buy milk", false, true, true⟩

/-- Sample environment: transcription yields no text. -/
def envNoText : StageEnv :=
  ⟨none, some "- buy milk", true, true, true⟩

/-- Sample environment: the Ollama request fails. -/
def envFormatFail : StageEnv :=
  ⟨some "buy milk", none, true, true, true⟩

/-- An observation sequence on which the file becomes stable with
threshold 3: four consecutive equal positive size reads. -/
def stableObs : List Obs := List.map Obs.size [512, 512, 512, 512]

/-- A prefix check for fewer entries follows from one for more entries. -/
theorem allEq_mono (x : Nat) :
    ∀ (k N : Nat) (xs : List Nat), k ≤ N → allEq x N xs = true →
      allEq x k xs = true := by
  intro k
  induction k with
  | zero => intro N xs _ _; rfl
  | succ k ih =>
    intro N xs hkN hN
    cases N with
    | zero => omega
    | succ N =>
      cases xs with
      | nil => simp [allEq] at hN
      | cons y ys =>
        simp only [allEq, Bool.and_eq_true] at hN ⊢
        exact ⟨hN.1, ih N ys (by omega) hN.2⟩

/-- When seeded with an actual size, `extendsRun` is a positivity test
plus an `allEq` prefix check. -/
theorem extendsRun_eq_allEq (x : Nat) :
    ∀ (xs : List Nat) (k : Nat), 1 ≤ k →
      extendsRun (x : Int) k xs = (decide (0 < x) && allEq x k xs) := by
  intro xs
  induction xs with
  | nil =>
    intro k hk
    cases k with
    | zero => omega
    | succ k => simp [extendsRun, allEq]
  | cons y ys ih =>
    intro k hk
    cases k with
    | zero => omega
    | succ k =>
      by_cases hxy : y = x
      · subst hxy
        cases k with
        | zero => simp [extendsRun, allEq]
        | succ k =>
          rw [extendsRun, ih (k + 1) (by omega)]
          cases h0 : decide (0 < y) <;> simp [allEq, h0]
      · have hyx : ¬((y : Int) = (x : Int)) := by
          exact_mod_cast hxy
        simp [extendsRun, allEq, hxy, hyx]

/-- The initial sentinel `last_size = -1` never matches a real size, so
no run can extend it. -/
theorem extendsRun_neg_one :
    ∀ (k : Nat) (xs : List Nat), 1 ≤ k → extendsRun (-1) k xs = false := by
  intro k xs hk
  cases k with
  | zero => omega
  | succ k =>
    cases xs with
    | nil => rfl
    | cons x xs =>
      have hx : ¬((x : Int) = (-1 : Int)) := by omega
      simp [extendsRun, hx]

/-- Invariant of the polling loop on pure size sequences: starting from
state `(last, count)` with `count ≤ N`, the loop declares stability
exactly when the sizes begin with enough increments to finish the current
run, or a full window of `N + 1` equal positive sizes occurs later. -/
theorem pollLoop_stable_iff_window (N : Nat) :
    ∀ (sizes : List Nat) (last : Int) (count : Nat), count ≤ N →
      isStable (pollLoop N last count (sizes.map Obs.size))
        = (extendsRun last (N - count) sizes || hasStableWindow N sizes) := by
  intro sizes
  induction sizes with
  | nil =>
    intro last count hcount
    by_cases h : N ≤ count
    · have hc : count = N := le_antisymm hcount h
      subst hc
      simp [pollLoop, isStable, extendsRun, Nat.sub_self]
    · obtain ⟨m, hm⟩ : ∃ m, N - count = m + 1 := ⟨N - count - 1, by omega⟩
      simp [pollLoop, isStable, h, hm, extendsRun, hasStableWindow]
  | cons x xs ih =>
    intro last count hcount
    by_cases h : N ≤ count
    · have hc : count = N := le_antisymm hcount h
      subst hc
      simp [pollLoop, isStable, Nat.sub_self, extendsRun]
    · have hlt : count < N := lt_of_not_ge h
      simp only [List.map_cons]
      rw [pollLoop]
      rw [if_neg h]
      by_cases hc : (x : Int) = last ∧ 0 < x
      · rw [if_pos hc]
        rw [ih (x : Int) (count + 1) (by omega)]
        obtain ⟨m, hm⟩ : ∃ m, N - count = m + 1 := ⟨N - count - 1, by omega⟩
        have hm' : N - (count + 1) = m := by omega
        rw [hm, hm', extendsRun]
        have h1 : decide ((x : Int) = last) = true := by simp [hc.1]
        have h2 : decide (0 < x) = true := by simp [hc.2]
        rw [h1, h2]
        simp only [Bool.true_and]
        rw [hasStableWindow, h2, Bool.true_and]
        cases hA : allEq x N xs
        · simp [hA]
        · have hE : extendsRun (x : Int) m xs = true := by
            cases m with
            | zero => rfl
            | succ m' =>
              rw [extendsRun_eq_allEq x xs (m' + 1) (by omega), h2,
                Bool.true_and]
              exact allEq_mono x (m' + 1) N xs (by omega) hA
          simp [hE]
      · rw [if_neg hc]
        rw [ih (x : Int) 0 (by omega)]
        rw [Nat.sub_zero]
        obtain ⟨m, hm⟩ : ∃ m, N - count = m + 1 := ⟨N - count - 1, by omega⟩
        rw [hm, extendsRun]
        have hfalse :
            (decide ((x : Int) = last) && decide (0 < x)) = false := by
          rcases not_and_or.mp hc with h1 | h2
          · simp [h1]
          · simp [h2]
        rw [hfalse, Bool.false_and, Bool.false_or]
        rw [hasStableWindow]
        rw [extendsRun_eq_allEq x xs N (by omega)]

/-- `declaresStable` in terms of `isStable`. -/
theorem declaresStable_eq_isStable (N : Nat) (sizes : List Nat) :
    declaresStable N sizes
      = isStable (pollLoop N (-1) 0 (sizes.map Obs.size)) := by
  unfold declaresStable
  cases h : pollLoop N (-1) 0 (sizes.map Obs.size) <;> simp [isStable]

/-- Characterization of the stability detector on pure size sequences:
with threshold `N ≥ 1`, stability is declared exactly when the sequence
contains `N + 1` consecutive equal sizes whose common value is positive. -/
theorem declaresStable_eq_hasStableWindow (N : Nat) (sizes : List Nat)
    (hN : 1 ≤ N) :
    declaresStable N sizes = hasStableWindow N sizes := by
  rw [declaresStable_eq_isStable,
    pollLoop_stable_iff_window N sizes (-1) 0 (by omega), Nat.sub_zero,
    extendsRun_neg_one N sizes hN, Bool.false_or]

/-- C1 (counterexample): with threshold 3 and observed sizes
`[0, 0, 512, 512, 512]`, the detector does NOT declare the file stable
after the third `512` reading at the 5th poll — the counter only
increments when the current size equals the previous one, so it stands at
2 after the 5th poll and the loop is still waiting. -/
theorem C1_counterexample :
    declaresStable 3 [0, 0, 512, 512, 512] = false ∧
    pollLoop 3 (-1) 0 (List.map Obs.size [0, 0, 512, 512, 512])
      = .pending 512 2 := by
  decide

/-- C1 (amended): with threshold `N ≥ 1`, the detector declares a file
stable exactly when `N + 1` consecutive polled sizes are equal and
positive (each of the last `N` polls repeats its predecessor); for
`[0, 0, 512, 512, 512, 512]` stability is declared at the 6th poll, after
the fourth consecutive `512` reading, with all six observations
consumed. -/
theorem C1_stability_threshold :
    (∀ (N : Nat) (sizes : List Nat), 1 ≤ N →
        declaresStable N sizes = hasStableWindow N sizes)
  ∧ pollLoop 3 (-1) 0 (List.map Obs.size [0, 0, 512, 512, 512, 512])
      = .stable [] := by
  constructor
  · intro N sizes hN
    exact declaresStable_eq_hasStableWindow N sizes hN
  · decide

/-- C1 (witness): the amended characterization instantiated at threshold
3 on the six-poll sequence. -/
theorem C1_stability_threshold_witness :
    declaresStable 3 [0, 0, 512, 512, 512, 512]
      = hasStableWindow 3 [0, 0, 512, 512, 512, 512] :=
  C1_stability_threshold.1 3 [0, 0, 512, 512, 512, 512] (by decide)

/-- C3: a polled size of zero never increments the stability counter —
it resets it to 0 — and consequently a file whose size reads zero at every
poll is never declared stable, for any number of repetitions. -/
theorem C3_zero_never_stable :
    (∀ (N : Nat) (last : Int) (count : Nat) (rest : List Obs), count < N →
        pollLoop N last count (Obs.size 0 :: rest) = pollLoop N 0 0 rest)
  ∧ (∀ (N k : Nat), 1 ≤ N →
        declaresStable N (List.replicate k 0) = false) := by
  constructor
  · intro N last count rest hcount
    have h1 : ¬(N ≤ count) := by omega
    simp only [pollLoop, if_neg h1, Nat.cast_zero]
    rw [if_neg]
    rintro ⟨-, h⟩
    exact absurd h (by omega)
  · intro N k hN
    rw [declaresStable_eq_hasStableWindow N _ hN]
    induction k with
    | zero => rfl
    | succ k ih =>
      rw [List.replicate_succ, hasStableWindow]
      simp [ih]

/-- C3 (witness): the reset step and the all-zero sequence at threshold 3
with five zero reads. -/
theorem C3_zero_never_stable_witness :
    pollLoop 3 (-1) 0 (Obs.size 0 :: [Obs.size 0]) = pollLoop 3 0 0 [Obs.size 0]
  ∧ declaresStable 3 (List.replicate 5 0) = false :=
  ⟨C3_zero_never_stable.1 3 (-1) 0 [Obs.size 0] (by decide),
   C3_zero_never_stable.2 3 5 (by decide)⟩

/-- C4: a transient access error (`OSError` on the size read) leaves the
stability state untouched — the loop continues on the remaining
observations with the same `last_size` and `stable_count` — and a run of
lock errors of any length just leaves the detector waiting in the same
state, never abandoning the run. -/
theorem C4_locked_preserves_state :
    (∀ (N : Nat) (last : Int) (count : Nat) (rest : List Obs), count < N →
        pollLoop N last count (Obs.locked :: rest)
          = pollLoop N last count rest)
  ∧ (∀ (N : Nat) (last : Int) (count k : Nat), count < N →
        pollLoop N last count (List.replicate k Obs.locked)
          = .pending last count) := by
  constructor
  · intro N last count rest hcount
    have h1 : ¬(N ≤ count) := by omega
    simp only [pollLoop, if_neg h1]
  · intro N last count k hcount
    have h1 : ¬(N ≤ count) := by omega
    induction k with
    | zero => simp only [List.replicate, pollLoop, if_neg h1]
    | succ k ih =>
      rw [List.replicate_succ]
      simp only [pollLoop, if_neg h1]
      exact ih

/-- C4 (witness): a lock error at threshold 3, and ten consecutive lock
errors, leave state `(512, 1)` untouched. -/
theorem C4_locked_preserves_state_witness :
    pollLoop 3 512 1 (Obs.locked :: [Obs.size 512])
      = pollLoop 3 512 1 [Obs.size 512]
  ∧ pollLoop 3 512 1 (List.replicate 10 Obs.locked) = .pending 512 1 :=
  ⟨C4_locked_preserves_state.1 3 512 1 [Obs.size 512] (by decide),
   C4_locked_preserves_state.2 3 512 1 10 (by decide)⟩

/-- C5: if the file disappears during stability polling, the worker ends
with outcome `disappeared`, no pipeline stage runs (there is no pipeline
trace), and the path is no longer in the registry. -/
theorem C5_disappeared_abandons (reg : Finset String) (p : String)
    (obs : List Obs) (env : StageEnv)
    (h : pollLoop 3 (-1) 0 obs = .disappeared) :
    (check_and_process_thread reg p obs env).outcome = .disappeared ∧
    (check_and_process_thread reg p obs env).trace = none ∧
    p ∉ (check_and_process_thread reg p obs env).files_being_checked := by
  unfold check_and_process_thread
  rw [h]
  exact ⟨rfl, rfl, Finset.not_mem_erase p reg⟩

/-- C5 (witness): a first-poll disappearance for `memo.wav`. -/
theorem C5_disappeared_abandons_witness :
    (check_and_process_thread {"memo.wav"} "memo.wav" [Obs.disappeared]
        envHappy).outcome = .disappeared ∧
    (check_and_process_thread {"memo.wav"} "memo.wav" [Obs.disappeared]
        envHappy).trace = none ∧
    "memo.wav" ∉ (check_and_process_thread {"memo.wav"} "memo.wav"
        [Obs.disappeared] envHappy).files_being_checked :=
  C5_disappeared_abandons {"memo.wav"} "memo.wav" [Obs.disappeared] envHappy
    (by decide)

/-- C2 (counterexample): on a stable file with non-empty transcription, a
failing persist write jumps to the `except` handler, so the cleanup step
never runs — the source audio file is NOT removed (only the registry entry
is released). -/
theorem C2_counterexample :
    (check_and_process_thread {"memo.wav"} "memo.wav" stableObs
        envPersistFail).trace
      = some { formatAttempted := true, persistAttempted := true
               persistedNote := none
               notifyAttempted := false, notified := false
               cleanupAttempted := false, sourceRemoved := false } ∧
    (check_and_process_thread {"memo.wav"} "memo.wav" stableObs
        envPersistFail).outcome = .unhandledError := by
  decide

/-- C2 (amended): if the persist write fails on a stable file with
non-empty transcription, the registry entry is still released (the
`finally` block runs) and the run ends as an unhandled error, but the
cleanup stage does not execute: the source audio file is not removed. -/
theorem C2_persist_failure (reg : Finset String) (p : String)
    (obs : List Obs) (env : StageEnv)
    (hstable : ∃ rest, pollLoop 3 (-1) 0 obs = .stable rest)
    (htext : truthy env.transcribeResult = true)
    (hpersist : env.persistOk = false) :
    p ∉ (check_and_process_thread reg p obs env).files_being_checked ∧
    (check_and_process_thread reg p obs env).outcome = .unhandledError ∧
    (check_and_process_thread reg p obs env).trace
      = some { formatAttempted := true, persistAttempted := true
               persistedNote := none
               notifyAttempted := false, notified := false
               cleanupAttempted := false, sourceRemoved := false } := by
  obtain ⟨rest, hrest⟩ := hstable
  unfold check_and_process_thread
  rw [hrest]
  cases h : env.transcribeResult with
  | none => rw [h] at htext; simp [truthy] at htext
  | some t =>
    rw [h] at htext
    simp only [truthy, Bool.not_eq_true'] at htext
    simp [processStable, h, htext, hpersist, Finset.not_mem_erase]

/-- C2 (witness): the amended statement on the concrete four-poll stable
run with a failing persist write. -/
theorem C2_persist_failure_witness :
    "memo.wav" ∉ (check_and_process_thread {"memo.wav"} "memo.wav" stableObs
        envPersistFail).files_being_checked ∧
    (check_and_process_thread {"memo.wav"} "memo.wav" stableObs
        envPersistFail).outcome = .unhandledError ∧
    (check_and_process_thread {"memo.wav"} "memo.wav" stableObs
        envPersistFail).trace
      = some { formatAttempted := true, persistAttempted := true
               persistedNote := none
               notifyAttempted := false, notified := false
               cleanupAttempted := false, sourceRemoved := false } :=
  C2_persist_failure {"memo.wav"} "memo.wav" stableObs envPersistFail
    ⟨[], by decide⟩ (by decide) (by decide)

/-- C6: if transcription yields no text (`None` or the empty string), the
run skips Format, Persist and Notify, but cleanup still executes and (the
removal succeeding) the source file is removed; the registry entry is
released. -/
theorem C6_no_text_still_cleans (reg : Finset String) (p : String)
    (obs : List Obs) (env : StageEnv)
    (hstable : ∃ rest, pollLoop 3 (-1) 0 obs = .stable rest)
    (hno : truthy env.transcribeResult = false)
    (hremove : env.removeOk = true) :
    (check_and_process_thread reg p obs env).outcome = .completed ∧
    (check_and_process_thread reg p obs env).trace
      = some { formatAttempted := false, persistAttempted := false
               persistedNote := none
               notifyAttempted := false, notified := false
               cleanupAttempted := true, sourceRemoved := true } ∧
    p ∉ (check_and_process_thread reg p obs env).files_being_checked := by
  obtain ⟨rest, hrest⟩ := hstable
  unfold check_and_process_thread
  rw [hrest]
  cases h : env.transcribeResult with
  | none => simp [processStable, h, skippedTrace, hremove, Finset.not_mem_erase]
  | some t =>
    rw [h] at hno
    simp only [truthy, Bool.not_eq_false', beq_iff_eq] at hno
    subst hno
    simp [processStable, h, skippedTrace, hremove, Finset.not_mem_erase]

/-- C6 (witness): a stable run whose transcription returned `None`, with
a succeeding source removal. -/
theorem C6_no_text_still_cleans_witness :
    (check_and_process_thread {"memo.wav"} "memo.wav" stableObs
        envNoText).outcome = .completed ∧
    (check_and_process_thread {"memo.wav"} "memo.wav" stableObs
        envNoText).trace
      = some { formatAttempted := false, persistAttempted := false
               persistedNote := none
               notifyAttempted := false, notified := false
               cleanupAttempted := true, sourceRemoved := true } ∧
    "memo.wav" ∉ (check_and_process_thread {"memo.wav"} "memo.wav" stableObs
        envNoText).files_being_checked :=
  C6_no_text_still_cleans {"memo.wav"} "memo.wav" stableObs envNoText
    ⟨[], by decide⟩ (by decide) (by decide)

/-- C7: whenever a worker thread ends (stable run — completed or failed —
or disappearance; every outcome except still-polling), the path has been
removed from `files_being_checked`; and a successful admission requires
the path to be absent from the registry, so release is the only way a
path becomes admissible again. -/
theorem C7_release_on_every_exit :
    (∀ (reg : Finset String) (p : String) (obs : List Obs) (env : StageEnv),
        (check_and_process_thread reg p obs env).outcome ≠ .pending →
        p ∉ (check_and_process_thread reg p obs env).files_being_checked)
  ∧ (∀ (reg : Finset String) (p : String),
        (start_stability_check reg p).2 = true → p ∉ reg) := by
  constructor
  · intro reg p obs env h
    unfold check_and_process_thread at h ⊢
    cases hp : pollLoop 3 (-1) 0 obs with
    | stable rest => simp [hp, Finset.not_mem_erase]
    | disappeared => simp [hp, Finset.not_mem_erase]
    | pending l c => rw [hp] at h; simp at h
  · intro reg p h
    unfold start_stability_check at h
    by_cases hc : p ∉ reg ∧ is_audio_file p
    · exact hc.1
    · rw [if_neg hc] at h
      simp at h

/-- C7 (witness): release after an unhandled-error run, and admission of
a fresh path implying prior absence. -/
theorem C7_release_on_every_exit_witness :
    "memo.wav" ∉ (check_and_process_thread {"memo.wav"} "memo.wav" stableObs
        envPersistFail).files_being_checked ∧
    "memo.wav" ∉ (∅ : Finset String) :=
  ⟨C7_release_on_every_exit.1 {"memo.wav"} "memo.wav" stableObs
      envPersistFail (by decide),
   C7_release_on_every_exit.2 ∅ "memo.wav" (by decide)⟩

/-- C9: when transcription yields non-empty text, the Ollama request
fails, and the persist write succeeds, the run persists the fallback note
embedding the raw transcribed text — the capture is not lost. -/
theorem C9_format_fallback_persisted (reg : Finset String) (p : String)
    (obs : List Obs) (env : StageEnv) (t : String)
    (hstable : ∃ rest, pollLoop 3 (-1) 0 obs = .stable rest)
    (ht : env.transcribeResult = some t) (hne : ¬(t = ""))
    (hfmt : env.ollamaResponse = none) (hpersist : env.persistOk = true) :
    (check_and_process_thread reg p obs env).trace
      = some { formatAttempted := true, persistAttempted := true
               persistedNote :=
                 some ("Error: Could not connect to Ollama. Raw text: " ++ t)
               notifyAttempted := true, notified := env.notifyOk
               cleanupAttempted := true, sourceRemoved := env.removeOk } := by
  obtain ⟨rest, hrest⟩ := hstable
  unfold check_and_process_thread
  rw [hrest]
  simp [processStable, ht, hne, hfmt, hpersist, format_text]

/-- C9 (witness): the fallback note for raw text `"buy milk"` is
persisted when Ollama is unreachable. -/
theorem C9_format_fallback_persisted_witness :
    (check_and_process_thread {"memo.wav"} "memo.wav" stableObs
        envFormatFail).trace
      = some { formatAttempted := true, persistAttempted := true
               persistedNote := some
                 ("Error: Could not connect to Ollama. Raw text: buy milk")
               notifyAttempted := true, notified := true
               cleanupAttempted := true, sourceRemoved := true } :=
  C9_format_fallback_persisted {"memo.wav"} "memo.wav" stableObs envFormatFail
    "buy milk" ⟨[], by decide⟩ (by decide) (by decide) (by decide) (by decide)

/-- C10: on a stable run, the notification is attempted exactly when the
transcription produced truthy (non-`None`, non-empty) text AND the
persist write succeeded; in particular a failed persist means no
notification. -/
theorem C10_notify_iff_text_and_persist (reg : Finset String) (p : String)
    (obs : List Obs) (env : StageEnv)
    (hstable : ∃ rest, pollLoop 3 (-1) 0 obs = .stable rest) :
    ((check_and_process_thread reg p obs env).trace.map
        (fun tr => tr.notifyAttempted))
      = some (truthy env.transcribeResult && env.persistOk) := by
  obtain ⟨rest, hrest⟩ := hstable
  unfold check_and_process_thread
  rw [hrest]
  cases h : env.transcribeResult with
  | none => simp [processStable, h, skippedTrace, truthy]
  | some t =>
    cases hne : (t == "") with
    | true => simp [processStable, h, hne, skippedTrace, truthy]
    | false =>
      cases hp : env.persistOk with
      | true => simp [processStable, h, hne, hp, truthy]
      | false => simp [processStable, h, hne, hp, truthy]

/-- C10 (witness): with a failed persist write the notification is not
attempted. -/
theorem C10_notify_iff_text_and_persist_witness :
    ((check_and_process_thread {"memo.wav"} "memo.wav" stableObs
        envPersistFail).trace.map (fun tr => tr.notifyAttempted))
      = some (truthy envPersistFail.transcribeResult
          && envPersistFail.persistOk) :=
  C10_notify_iff_text_and_persist {"memo.wav"} "memo.wav" stableObs
    envPersistFail ⟨[], by decide⟩

/-- C8 (counterexample): the admission code is check-then-act, not
atomic: if the two callers interleave as test, test, add, add, both
membership tests see the path absent and BOTH admissions succeed,
spawning two workers for the same path. -/
theorem C8_counterexample :
    (runSchedule "a.wav" [false, true, false, true]
        ⟨∅, initCaller, initCaller⟩).c0.added = true
  ∧ (runSchedule "a.wav" [false, true, false, true]
        ⟨∅, initCaller, initCaller⟩).c1.added = true := by
  decide

/-- C8 (amended): when the two admission attempts are serialized — one
caller's membership test and insertion both complete before the other
caller starts, as happens when both filesystem events are dispatched by
the single watchdog dispatch thread — exactly one admission succeeds for
a fresh audio path; under interleaved execution the check-then-act code
admits both. -/
theorem C8_serialized_admission (reg : Finset String) (p : String)
    (hfresh : p ∉ reg) (haudio : is_audio_file p = true) :
    (runSchedule p [false, false, true, true]
        ⟨reg, initCaller, initCaller⟩).c0.added = true
  ∧ (runSchedule p [false, false, true, true]
        ⟨reg, initCaller, initCaller⟩).c1.added = false := by
  simp [runSchedule, admitStep, initCaller, hfresh, haudio]

/-- C8 (witness): serialized admission of `a.wav` into an empty
registry. -/
theorem C8_serialized_admission_witness :
    (runSchedule "a.wav" [false, false, true, true]
        ⟨∅, initCaller, initCaller⟩).c0.added = true
  ∧ (runSchedule "a.wav" [false, false, true, true]
        ⟨∅, initCaller, initCaller⟩).c1.added = false :=
  C8_serialized_admission ∅ "a.wav" (by decide) (by decide)

end IdeaPipeline
